import Mathlib

/-!
Verification development for the Gest-Controller core: the gesture
recognizer (`src/gesture_recognizer.py`) and the virtual-desktop
interaction model (`src/virtual_window.py`, reset wired in
`src/main.py`).  The Python classes are embedded shallowly: mutable
objects become explicit state records, positions are integer pairs, and
the recognizer's floating-point distance tests are rendered exactly
(single square-root comparisons against a non-negative integer
threshold are stated as comparisons of squares, which is an exact
transformation; the circle detector's arclength, a sum of square roots,
is kept as a real number).
-/

namespace GestCtrl

/-- A 2-D pixel position `(x, y)` with integer coordinates. -/
abbrev Point := ℤ × ℤ

/-- The four swipe directions of `detect_swipe` / `handle_swipe`. -/
inductive Dir
  | left
  | right
  | up
  | down
  deriving DecidableEq

/-- The `direction` argument of `detect_swipe`: the string `'any'` or one of
the four direction strings. -/
inductive DirReq
  | any
  | exact (d : Dir)
  deriving DecidableEq

/-- Rotation sense returned by `detect_circle`. -/
inductive Rot
  | clockwise
  | counterclockwise
  deriving DecidableEq

/-- State of one `GestureRecognizer` instance: `position_history` is the
`deque(maxlen=maxcap)` (oldest first, newest last), `last_gesture` is set at
construction and never written again, `gesture_cooldown` and
`cooldown_frames` are the shared cooldown counter and its reload value. -/
structure RecState where
  position_history : List Point
  last_gesture : Option Dir
  gesture_cooldown : ℕ
  cooldown_frames : ℕ
  maxcap : ℕ
  deriving DecidableEq

/-- Does the requested direction string accept the classified direction
(`direction == 'any' or direction == detected_direction`)? -/
def DirReq.accepts (r : DirReq) (d : Dir) : Bool :=
  match r with
  | .any => true
  | .exact d' => d' == d

namespace GestureRecognizer

/-- Constructor `GestureRecognizer.__init__(history_size=10)`.  The buffer is
`deque(maxlen=history_size)`; Python's `deque` raises `ValueError` when
`maxlen` is negative, which is the constructor's only failure path, so the
embedding returns an error exactly for negative capacities.  `maxlen = 0` is
accepted by `deque` (a permanently empty buffer). -/
def init (history_size : ℤ) : Except String RecState :=
  if history_size < 0 then .error "maxlen must be non-negative"
  else .ok { position_history := [], last_gesture := none, gesture_cooldown := 0,
             cooldown_frames := 15, maxcap := history_size.toNat }

/-- Appending to a `deque` with a `maxlen`: the new element goes to the right
and, if the capacity is exceeded, elements fall off the left. -/
def pushBounded (cap : ℕ) (h : List Point) (p : Point) : List Point :=
  let h2 := h ++ [p]
  h2.drop (h2.length - cap)

/-- `GestureRecognizer.update`: append the position when one was observed
(a 2-tuple is always truthy in Python, so `if position:` is exactly the
none-check), then decrement a positive cooldown by one. -/
def update (s : RecState) (position : Option Point) : RecState :=
  let s1 := match position with
    | some p => { s with position_history := pushBounded s.maxcap s.position_history p }
    | none => s
  if s1.gesture_cooldown > 0 then { s1 with gesture_cooldown := s1.gesture_cooldown - 1 }
  else s1

/-- `GestureRecognizer.detect_swipe(direction='any', threshold=100)`.
The source compares `sqrt(dx**2 + dy**2) < threshold`; for a non-negative
integer threshold this is exactly `dx^2 + dy^2 < threshold^2`, which is how
the test is written here.  Returns the detected direction (when any) together
with the recognizer state after the call. -/
def detect_swipe (s : RecState) (direction : DirReq) (threshold : ℕ) :
    Option Dir × RecState :=
  if s.position_history.length < 5 then (none, s)
  else
    let start := s.position_history.headD (0, 0)
    let en := s.position_history.getLastD (0, 0)
    let dx := en.1 - start.1
    let dy := en.2 - start.2
    if dx ^ 2 + dy ^ 2 < (threshold : ℤ) ^ 2 then (none, s)
    else
      let detected : Dir :=
        if |dx| > |dy| then (if dx > 0 then Dir.right else Dir.left)
        else (if dy > 0 then Dir.down else Dir.up)
      if direction.accepts detected then
        if s.gesture_cooldown = 0 then
          (some detected, { s with gesture_cooldown := s.cooldown_frames })
        else (none, s)
      else (none, s)

/-- `GestureRecognizer.detect_push(threshold=150)`: fires when the vertical
displacement from oldest to newest buffered point satisfies `dy > threshold`
(strict) and the cooldown is zero. -/
def detect_push (s : RecState) (threshold : ℕ) : Bool × RecState :=
  if s.position_history.length < 5 then (false, s)
  else
    let start := s.position_history.headD (0, 0)
    let en := s.position_history.getLastD (0, 0)
    let dy := en.2 - start.2
    if dy > (threshold : ℤ) ∧ s.gesture_cooldown = 0 then
      (true, { s with gesture_cooldown := s.cooldown_frames })
    else (false, s)

/-- `GestureRecognizer.detect_pull(threshold=150)`: fires when
`dy < -threshold` (strict) and the cooldown is zero. -/
def detect_pull (s : RecState) (threshold : ℕ) : Bool × RecState :=
  if s.position_history.length < 5 then (false, s)
  else
    let start := s.position_history.headD (0, 0)
    let en := s.position_history.getLastD (0, 0)
    let dy := en.2 - start.2
    if dy < -(threshold : ℤ) ∧ s.gesture_cooldown = 0 then
      (true, { s with gesture_cooldown := s.cooldown_frames })
    else (false, s)

/-- Squared Euclidean distance between two points (the quantity under the
square root in the source's segment computations). -/
def sqSeg (p q : Point) : ℤ := (q.1 - p.1) ^ 2 + (q.2 - p.2) ^ 2

/-- Euclidean length of one history segment, `sqrt((x2-x1)^2 + (y2-y1)^2)`. -/
noncomputable def segLen (p q : Point) : ℝ := Real.sqrt ((sqSeg p q : ℤ) : ℝ)

/-- `total_distance` of `detect_circle`: the cumulative arclength over all
consecutive pairs of buffered points. -/
noncomputable def totalPath (h : List Point) : ℝ :=
  ((h.zip h.tail).map (fun pq => segLen pq.1 pq.2)).sum

/-- `cross_sum` of `detect_circle`: the shoelace-style sum
`Σ (x[i] - x[i-1]) * (y[i] + y[i-1])` over consecutive pairs. -/
def crossSum (h : List Point) : ℤ :=
  ((h.zip h.tail).map (fun pq => (pq.2.1 - pq.1.1) * (pq.2.2 + pq.1.2))).sum

/-- Squared closure distance between oldest and newest buffered point.  The
source compares `sqrt(...) < 50`; this is exactly `sqClosure < 2500`. -/
def sqClosure (h : List Point) : ℤ := sqSeg (h.headD (0, 0)) (h.getLastD (0, 0))

/-- `GestureRecognizer.detect_circle(threshold=200)`: needs 8 buffered points,
a cumulative arclength of at least `threshold`, and a closure distance below
50; the rotation sense is the sign of the shoelace sum.  The single-sqrt
closure test is stated as a comparison of squares (exact); the arclength test
is kept over the reals. -/
noncomputable def detect_circle (s : RecState) (threshold : ℕ) :
    Option Rot × RecState :=
  if s.position_history.length < 8 then (none, s)
  else if totalPath s.position_history < (threshold : ℝ) then (none, s)
  else if sqClosure s.position_history < 2500 then
    if s.gesture_cooldown = 0 then
      (some (if 0 < crossSum s.position_history then Rot.clockwise else Rot.counterclockwise),
       { s with gesture_cooldown := s.cooldown_frames })
    else (none, s)
  else (none, s)

end GestureRecognizer

/-- One `VirtualWindow` object.  Python windows are compared by object
identity (`list.remove`, `w2 != window` with no custom `__eq__`); the
embedding makes identity explicit as a numeric `winId`.  Fresh objects
(the demo windows created at construction or reset) get fresh ids, so a
stale reference held in `active_window` never aliases a new window, exactly
as a stale Python object reference never aliases a newly created object. -/
structure VirtualWindow where
  winId : ℕ
  x : ℤ
  y : ℤ
  width : ℤ
  height : ℤ
  title : String
  color : ℤ × ℤ × ℤ
  is_active : Bool
  is_minimized : Bool
  original_pos : ℤ × ℤ
  deriving DecidableEq

/-- `VirtualWindow.__init__`: geometry and metadata, `is_active = False`,
`is_minimized = False`, `original_pos = (x, y)`. -/
def VirtualWindow.mk' (winId : ℕ) (x y width height : ℤ) (title : String)
    (color : ℤ × ℤ × ℤ) : VirtualWindow :=
  { winId, x, y, width, height, title, color,
    is_active := false, is_minimized := false, original_pos := (x, y) }

/-- `VirtualWindow.contains_point`: false when minimized, else inclusive
membership in `[x, x+width] × [y, y+height]`. -/
def VirtualWindow.contains_point (w : VirtualWindow) (px py : ℤ) : Bool :=
  if w.is_minimized then false
  else decide (w.x ≤ px ∧ px ≤ w.x + w.width ∧ w.y ≤ py ∧ py ≤ w.y + w.height)

/-- `VirtualWindow.in_title_bar`: false when minimized, else inclusive
membership in `[x, x+width] × [y, y+30]`. -/
def VirtualWindow.in_title_bar (w : VirtualWindow) (px py : ℤ) : Bool :=
  if w.is_minimized then false
  else decide (w.x ≤ px ∧ px ≤ w.x + w.width ∧ w.y ≤ py ∧ py ≤ w.y + 30)

/-- State of the `VirtualDesktop`: the window list is back-to-front
(front = last), `active_window` holds the id of the window object the
Python `active_window` reference points to (which need not be in
`windows` after a reset discarded it), `nextId` supplies fresh object
identities for newly constructed windows. -/
structure DesktopState where
  width : ℤ
  height : ℤ
  windows : List VirtualWindow
  active_window : Option ℕ
  dragging : Bool
  drag_offset : ℤ × ℤ
  status_message : String
  message_timer : ℕ
  nextId : ℕ
  deriving DecidableEq

namespace VirtualDesktop

/-- The three canonical demo windows of `_create_demo_windows`, with object
identities starting at `base`. -/
def demoWindows (base : ℕ) : List VirtualWindow :=
  [VirtualWindow.mk' base 100 100 300 200 "Notes" (230, 216, 173),
   VirtualWindow.mk' (base + 1) 450 150 350 250 "Browser" (173, 216, 230),
   VirtualWindow.mk' (base + 2) 250 350 280 180 "Music" (216, 191, 216)]

/-- `VirtualDesktop._create_demo_windows`: replace `self.windows` with three
freshly constructed windows.  Nothing else is assigned: `active_window`,
`dragging` and `drag_offset` keep their previous values. -/
def create_demo_windows (d : DesktopState) : DesktopState :=
  { d with windows := demoWindows d.nextId, nextId := d.nextId + 3 }

/-- `VirtualDesktop.__init__(width=1280, height=720)`: plain field
assignments followed by `_create_demo_windows()`; the source performs no
validation of the dimensions. -/
def mkState (width height : ℤ) : DesktopState :=
  create_demo_windows
    { width, height, windows := [], active_window := none, dragging := false,
      drag_offset := (0, 0),
      status_message := "Welcome! Use hand gestures to control windows",
      message_timer := 0, nextId := 0 }

/-- Constructor viewed as a fallible operation: the source body has no
failure path at all, so construction succeeds for every pair of dimensions. -/
def init (width height : ℤ) : Except String DesktopState :=
  .ok (mkState width height)

/-- `VirtualDesktop.set_status`: replace the message, timer back to 60. -/
def set_status (d : DesktopState) (message : String) : DesktopState :=
  { d with status_message := message, message_timer := 60 }

/-- `VirtualDesktop._bring_to_front`: if the window is in the list, remove
its (first, and by unique identity only) occurrence, append it, and
deactivate every other window in the resulting list. -/
def bring_to_front (d : DesktopState) (w : VirtualWindow) : DesktopState :=
  if d.windows.any (fun v => v.winId == w.winId) then
    let l := d.windows.eraseP (fun v => v.winId == w.winId) ++ [w]
    { d with windows := l.map (fun v =>
        if v.winId == w.winId then v else { v with is_active := false }) }
  else d

/-- `VirtualDesktop.handle_cursor(x, y, is_pinching)`: front-to-back hit
test, optional drag start on a title-bar pinch, drag release on pinch
release, then reposition of the active window while dragging.  Mutations of
the window the `active_window` reference aliases are rendered as a map over
the list keyed by `winId`; when the reference is stale (id not in the list)
the map is a no-op, matching Python where the mutation hits a discarded
object that is no longer observable through `windows`. -/
def handle_cursor (d : DesktopState) (x y : ℤ) (is_pinching : Bool) : DesktopState :=
  let clicked := d.windows.reverse.find? (fun w => w.contains_point x y)
  let d1 :=
    if is_pinching then
      if d.dragging = false then
        match clicked with
        | some w =>
          if w.in_title_bar x y then
            let da : DesktopState :=
              { d with dragging := true, active_window := some w.winId,
                       drag_offset := (x - w.x, y - w.y) }
            let db := bring_to_front da w
            { db with windows := db.windows.map (fun v =>
                if v.winId == w.winId then { v with is_active := true } else v) }
          else d
        | none => d
      else d
    else { d with dragging := false }
  if d1.dragging then
    match d1.active_window with
    | some i =>
      { d1 with windows := d1.windows.map (fun v =>
          if v.winId == i then
            { v with x := x - d1.drag_offset.1, y := y - d1.drag_offset.2 }
          else v) }
    | none => d1
  else d1

/-- Title of the window object the `active_window` reference aliases, used
only in status messages (empty when the reference is stale; the message text
itself is outside every claim). -/
def activeTitle (d : DesktopState) (i : ℕ) : String :=
  ((d.windows.find? (fun v => v.winId == i)).map (fun v => v.title)).getD ""

/-- `VirtualDesktop.handle_swipe(direction)`: with no active window,
activate the front-most window (if any) and return; otherwise translate the
active window by 50 px in the given direction and set a status message. -/
def handle_swipe (d : DesktopState) (direction : Dir) : DesktopState :=
  match d.active_window with
  | none =>
    match d.windows.getLast? with
    | some w =>
      { d with active_window := some w.winId,
               windows := d.windows.map (fun v =>
                 if v.winId == w.winId then { v with is_active := true } else v) }
    | none => d
  | some i =>
    let t := activeTitle d i
    match direction with
    | Dir.left =>
      set_status { d with windows := d.windows.map (fun v =>
        if v.winId == i then { v with x := v.x - 50 } else v) } ("Moved " ++ t ++ " left")
    | Dir.right =>
      set_status { d with windows := d.windows.map (fun v =>
        if v.winId == i then { v with x := v.x + 50 } else v) } ("Moved " ++ t ++ " right")
    | Dir.up =>
      set_status { d with windows := d.windows.map (fun v =>
        if v.winId == i then { v with y := v.y - 50 } else v) } ("Moved " ++ t ++ " up")
    | Dir.down =>
      set_status { d with windows := d.windows.map (fun v =>
        if v.winId == i then { v with y := v.y + 50 } else v) } ("Moved " ++ t ++ " down")

/-- `VirtualDesktop.handle_push`: grow the active window, width capped at
600 and height at 400. -/
def handle_push (d : DesktopState) : DesktopState :=
  match d.active_window with
  | none => d
  | some i =>
    set_status { d with windows := d.windows.map (fun v =>
        if v.winId == i then
          { v with width := min (v.width + 50) 600, height := min (v.height + 40) 400 }
        else v) } ("Enlarged " ++ activeTitle d i)

/-- `VirtualDesktop.handle_pull`: shrink the active window, width floored at
200 and height at 150. -/
def handle_pull (d : DesktopState) : DesktopState :=
  match d.active_window with
  | none => d
  | some i =>
    set_status { d with windows := d.windows.map (fun v =>
        if v.winId == i then
          { v with width := max (v.width - 50) 200, height := max (v.height - 40) 150 }
        else v) } ("Shrunk " ++ activeTitle d i)

/-- The reset operation: the `r` key handler in `GestureControlApp.run`
calls `_create_demo_windows()` and then
`set_status("Windows reset to default positions")`. -/
def reset (d : DesktopState) : DesktopState :=
  set_status (create_demo_windows d) "Windows reset to default positions"

end VirtualDesktop

/-- One desktop operation, for quantifying over operation sequences. -/
inductive DOp
  | cursor (x y : ℤ) (is_pinching : Bool)
  | swipe (direction : Dir)
  | push
  | pull
  | resetOp
  deriving DecidableEq

/-- Apply one desktop operation. -/
def applyOp (d : DesktopState) (op : DOp) : DesktopState :=
  match op with
  | .cursor x y p => VirtualDesktop.handle_cursor d x y p
  | .swipe dir => VirtualDesktop.handle_swipe d dir
  | .push => VirtualDesktop.handle_push d
  | .pull => VirtualDesktop.handle_pull d
  | .resetOp => VirtualDesktop.reset d

/-- The active-reference/z-order invariant of the spec, over a window list
and the id held by the `active_window` reference: every window flagged
active is the referenced one, the reference (when set) resolves inside the
list, and object identities are pairwise distinct. -/
def ActiveConsistent (ws : List VirtualWindow) (a : Option ℕ) : Prop :=
  (∀ w ∈ ws, w.is_active = true → a = some w.winId) ∧
  (match a with
   | some i => ∃ w ∈ ws, w.winId = i
   | none => True) ∧
  (ws.map (fun w => w.winId)).Nodup

/-- The desktop invariant of claim C2, on a full desktop state. -/
def DInv (d : DesktopState) : Prop := ActiveConsistent d.windows d.active_window

/-- A recognizer state with the default reload value (15) and default
capacity (10), used for concrete instantiations. -/
def recs (h : List Point) (c : ℕ) : RecState :=
  { position_history := h, last_gesture := none, gesture_cooldown := c,
    cooldown_frames := 15, maxcap := 10 }

/-- A 9-point square path of side 50 walked in steps of 25: arclength
exactly 200, closed (start = end), shoelace sum negative. -/
def sqHist : List Point :=
  [(0, 0), (25, 0), (50, 0), (50, 25), (50, 50), (25, 50), (0, 50), (0, 25), (0, 0)]

/-- Window size within the push/pull clamping bounds: width in [200, 600],
height in [150, 400]. -/
def sizeOk (w : VirtualWindow) : Prop :=
  200 ≤ w.width ∧ w.width ≤ 600 ∧ 150 ≤ w.height ∧ w.height ≤ 400

instance (w : VirtualWindow) : Decidable (sizeOk w) := by
  unfold sizeOk
  infer_instance

end GestCtrl


namespace GestCtrl

open GestureRecognizer VirtualDesktop

/-- Claim C1 (amended): resetting the desktop replaces the window collection
with exactly the 3 canonical demo windows (fresh objects, hence fresh ids),
but it leaves `active_window` and `dragging` exactly as they were; it does
not clear them. -/
theorem c1_reset_behavior : ∀ d : DesktopState,
    (VirtualDesktop.reset d).windows = demoWindows d.nextId ∧
    (VirtualDesktop.reset d).active_window = d.active_window ∧
    (VirtualDesktop.reset d).dragging = d.dragging := by
  intro d
  exact ⟨rfl, rfl, rfl⟩

/-- Claim C1 counterexample: after a title-bar pinch on the Notes window of
the freshly constructed desktop (which sets `dragging = true` and
`active_window`), the reset operation yields a state that still has
`dragging = true` and a set active reference, contradicting the claimed
"no active window set and dragging = false". -/
theorem c1_reset_counterexample :
    (VirtualDesktop.reset (handle_cursor (mkState 1280 720) 150 120 true)).dragging = true ∧
    (VirtualDesktop.reset (handle_cursor (mkState 1280 720) 150 120 true)).active_window ≠ none := by
  decide

/-- Claim C4 (amended): a negative history capacity fails fast at recognizer
construction (the bounded deque rejects it), but a zero capacity is accepted,
and desktop construction performs no validation at all, succeeding for every
pair of dimensions. -/
theorem c4_construction :
    (∀ n : ℤ, n < 0 → (GestureRecognizer.init n).isOk = false) ∧
    (GestureRecognizer.init 0).isOk = true ∧
    (∀ w h : ℤ, (VirtualDesktop.init w h).isOk = true) := by
  refine ⟨?_, rfl, fun w h => rfl⟩
  intro n hn
  simp [GestureRecognizer.init, hn, Except.isOk, Except.toBool]

/-- Claim C4 witness: concrete instances of the amended statement. -/
theorem c4_construction_witness :
    (GestureRecognizer.init (-3)).isOk = false ∧
    (GestureRecognizer.init 0).isOk = true ∧
    (VirtualDesktop.init 1280 720).isOk = true :=
  ⟨c4_construction.1 (-3) (by decide), c4_construction.2.1, c4_construction.2.2 1280 720⟩

/-- Claim C4 counterexample: a desktop with non-positive dimensions and a
recognizer with the non-positive capacity 0 are both constructed without any
error, refuting the claimed fail-fast behaviour. -/
theorem c4_construction_counterexample :
    (VirtualDesktop.init (-1) 0).isOk = true ∧
    (GestureRecognizer.init 0).isOk = true :=
  ⟨rfl, rfl⟩

/-- Claim C3 (amended): with sufficient history and zero cooldown, the swipe
and circle detectors treat their threshold inclusively on the pass side
(`distance < threshold` fails, so equality passes), while push and pull are
strict: push fires exactly when `dy > threshold` and pull exactly when
`dy < -threshold`, so a displacement exactly equal to the threshold fails
for them. -/
theorem c3_threshold_boundary :
    (∀ (s : RecState) (t : ℕ), 5 ≤ s.position_history.length →
      s.gesture_cooldown = 0 →
      ((detect_swipe s .any t).1 = none ↔
        ((s.position_history.getLastD (0, 0)).1 - (s.position_history.headD (0, 0)).1) ^ 2 +
          ((s.position_history.getLastD (0, 0)).2 - (s.position_history.headD (0, 0)).2) ^ 2
          < (t : ℤ) ^ 2)) ∧
    (∀ (s : RecState) (t : ℕ), 5 ≤ s.position_history.length →
      s.gesture_cooldown = 0 →
      ((detect_push s t).1 = true ↔
        (t : ℤ) < (s.position_history.getLastD (0, 0)).2 - (s.position_history.headD (0, 0)).2)) ∧
    (∀ (s : RecState) (t : ℕ), 5 ≤ s.position_history.length →
      s.gesture_cooldown = 0 →
      ((detect_pull s t).1 = true ↔
        (s.position_history.getLastD (0, 0)).2 - (s.position_history.headD (0, 0)).2 < -(t : ℤ))) ∧
    (∀ (s : RecState) (t : ℕ), 8 ≤ s.position_history.length →
      s.gesture_cooldown = 0 →
      ((detect_circle s t).1 = none ↔
        (totalPath s.position_history < (t : ℝ) ∨ 2500 ≤ sqClosure s.position_history))) := by
  refine ⟨?_, ?_, ?_, ?_⟩
  · intro s t h5 hc
    have h5' : ¬ (s.position_history.length < 5) := by omega
    simp only [detect_swipe, h5', if_false, hc, DirReq.accepts, if_true]
    split_ifs with h
    · exact iff_of_true rfl h
    · exact iff_of_false (by simp) h
  · intro s t h5 hc
    have h5' : ¬ (s.position_history.length < 5) := by omega
    simp only [detect_push, h5', if_false]
    split_ifs with h
    · exact iff_of_true rfl h.1
    · exact iff_of_false (by simp) (fun hlt => h ⟨hlt, hc⟩)
  · intro s t h5 hc
    have h5' : ¬ (s.position_history.length < 5) := by omega
    simp only [detect_pull, h5', if_false]
    split_ifs with h
    · exact iff_of_true rfl h.1
    · exact iff_of_false (by simp) (fun hlt => h ⟨hlt, hc⟩)
  · intro s t h8 hc
    have h8' : ¬ (s.position_history.length < 8) := by omega
    unfold detect_circle
    rw [if_neg h8']
    by_cases hP : totalPath s.position_history < (t : ℝ)
    · rw [if_pos hP]
      simp [hP]
    · rw [if_neg hP]
      by_cases hC : sqClosure s.position_history < 2500
      · rw [if_pos hC, if_pos hc]
        simp only [hP, false_or]
        constructor
        · intro h
          exact absurd h (by simp)
        · intro h
          omega
      · rw [if_neg hC]
        simp only [hP, false_or]
        constructor
        · intro _
          omega
        · intro _
          trivial

/-- Claim C3 counterexample: with five buffered points, zero cooldown and a
vertical displacement exactly equal to the threshold 150, `detect_push`
returns false — a measured value exactly equal to the threshold does not
count as passing for the push detector. -/
theorem c3_threshold_boundary_counterexample :
    5 ≤ (recs [(0,0),(0,0),(0,0),(0,0),(0,150)] 0).position_history.length ∧
    (recs [(0,0),(0,0),(0,0),(0,0),(0,150)] 0).gesture_cooldown = 0 ∧
    ((recs [(0,0),(0,0),(0,0),(0,0),(0,150)] 0).position_history.getLastD (0, 0)).2 -
      ((recs [(0,0),(0,0),(0,0),(0,0),(0,150)] 0).position_history.headD (0, 0)).2 = (150 : ℤ) ∧
    (detect_push (recs [(0,0),(0,0),(0,0),(0,0),(0,150)] 0) 150).1 = false := by
  decide

end GestCtrl

namespace GestCtrl

open GestureRecognizer VirtualDesktop

/-- Helper: the square root of 625 is 25. -/
theorem sqrt_625 : Real.sqrt 625 = 25 := by
  rw [show (625 : ℝ) = 25 ^ 2 by norm_num, Real.sqrt_sq (by norm_num : (0 : ℝ) ≤ 25)]

/-- Helper: the arclength of the 9-point square path is exactly 200
(eight axis-aligned segments of length 25). -/
theorem totalPath_sqHist : totalPath sqHist = 200 := by
  unfold totalPath sqHist segLen sqSeg
  norm_num [List.zip]
  rw [sqrt_625]
  norm_num

/-- Helper: on the square path with zero cooldown and threshold 200 the
circle detector fires and reports `counterclockwise` (the shoelace sum is
-5000), arming the cooldown. -/
theorem detect_circle_sqHist :
    detect_circle (recs sqHist 0) 200 = (some Rot.counterclockwise, recs sqHist 15) := by
  unfold detect_circle
  rw [if_neg (by decide)]
  rw [if_neg (by rw [show (recs sqHist 0).position_history = sqHist from rfl, totalPath_sqHist]; norm_num)]
  rw [if_pos (show sqClosure (recs sqHist 0).position_history < 2500 by decide),
      if_pos (show (recs sqHist 0).gesture_cooldown = 0 by decide),
      if_neg (show ¬ (0 < crossSum (recs sqHist 0).position_history) by decide)]
  rfl

/-- Claim C3 witness: boundary instances derived from the amended theorem —
a swipe whose displacement is exactly the threshold (100) fires, a push and
a pull whose displacement is exactly the threshold (150) do not, and the
square path whose arclength is exactly the threshold (200) passes the
circle detector's length test. -/
theorem c3_threshold_boundary_witness :
    (detect_swipe (recs [(0,0),(0,0),(0,0),(0,0),(100,0)] 0) .any 100).1 ≠ none ∧
    (detect_push (recs [(0,0),(0,0),(0,0),(0,0),(0,150)] 0) 150).1 ≠ true ∧
    (detect_pull (recs [(0,0),(0,0),(0,0),(0,0),(0,-150)] 0) 150).1 ≠ true ∧
    (detect_circle (recs sqHist 0) 200).1 ≠ none := by
  refine ⟨?_, ?_, ?_, ?_⟩
  · have h := c3_threshold_boundary.1 (recs [(0,0),(0,0),(0,0),(0,0),(100,0)] 0) 100
      (by decide) rfl
    intro hn
    have := h.mp hn
    revert this
    decide
  · have h := c3_threshold_boundary.2.1 (recs [(0,0),(0,0),(0,0),(0,0),(0,150)] 0) 150
      (by decide) rfl
    intro hn
    have := h.mp hn
    revert this
    decide
  · have h := c3_threshold_boundary.2.2.1 (recs [(0,0),(0,0),(0,0),(0,0),(0,-150)] 0) 150
      (by decide) rfl
    intro hn
    have := h.mp hn
    revert this
    decide
  · have h := c3_threshold_boundary.2.2.2 (recs sqHist 0) 200 (by decide) rfl
    intro hn
    rcases h.mp hn with h1 | h2
    · rw [show (recs sqHist 0).position_history = sqHist from rfl, totalPath_sqHist] at h1
      norm_num at h1
    · revert h2
      decide

/-- Claim C5 (confirmed): with at least 5 buffered points and zero cooldown,
`detect_swipe` with direction `any` classifies the oldest-to-newest
displacement exactly as the claim states — none below the threshold, then
right/left when `|dx| > |dy|` by the sign of `dx`, down/up otherwise by the
sign of `dy` (ties on `|dx| = |dy|` go vertical); and the concrete history
[(0,0),(0,0),(0,0),(0,0),(150,0)] with threshold 100 yields `right`. -/
theorem c5_swipe_any :
    (∀ (s : RecState) (t : ℕ), 5 ≤ s.position_history.length →
      s.gesture_cooldown = 0 →
      (detect_swipe s .any t).1 =
        (let start := s.position_history.headD (0, 0)
         let en := s.position_history.getLastD (0, 0)
         let dx := en.1 - start.1
         let dy := en.2 - start.2
         if dx ^ 2 + dy ^ 2 < (t : ℤ) ^ 2 then none
         else if |dx| > |dy| then (if 0 < dx then some Dir.right else some Dir.left)
         else if 0 < dy then some Dir.down else some Dir.up)) ∧
    (detect_swipe (recs [(0, 0), (0, 0), (0, 0), (0, 0), (150, 0)] 0) .any 100).1
      = some Dir.right := by
  refine ⟨?_, by decide⟩
  intro s t h5 hc
  have h5' : ¬ (s.position_history.length < 5) := by omega
  simp only [detect_swipe, h5', if_false, hc, DirReq.accepts, if_true]
  split_ifs <;> rfl

/-- Claim C5 witness: the classification applied at a further concrete
input, a purely vertical displacement of 120 with threshold 100, which the
amended classification maps to `down`. -/
theorem c5_swipe_any_witness :
    (detect_swipe (recs [(0, 0), (0, 0), (0, 0), (0, 0), (0, 120)] 0) .any 100).1
      = some Dir.down := by
  have h := c5_swipe_any.1 (recs [(0, 0), (0, 0), (0, 0), (0, 0), (0, 120)] 0) 100
    (by decide) rfl
  rw [h]
  decide

/-- Claim C6 (confirmed): with at least 8 buffered points and zero cooldown,
`detect_circle` returns none when the cumulative arclength is below the
threshold or the oldest-to-newest closure distance is at least 50, and
otherwise returns `clockwise` exactly when the shoelace sum is positive and
`counterclockwise` otherwise. -/
theorem c6_circle_classification :
    ∀ (s : RecState) (t : ℕ), 8 ≤ s.position_history.length →
      s.gesture_cooldown = 0 →
      (detect_circle s t).1 =
        (if totalPath s.position_history < (t : ℝ) then none
         else if 2500 ≤ sqClosure s.position_history then none
         else some (if 0 < crossSum s.position_history then Rot.clockwise
                    else Rot.counterclockwise)) := by
  intro s t h8 hc
  have h8' : ¬ (s.position_history.length < 8) := by omega
  unfold detect_circle
  rw [if_neg h8']
  by_cases hP : totalPath s.position_history < (t : ℝ)
  · rw [if_pos hP, if_pos hP]
  · rw [if_neg hP, if_neg hP]
    by_cases hC : sqClosure s.position_history < 2500
    · rw [if_pos hC, if_pos hc,
          if_neg (show ¬ (2500 ≤ sqClosure s.position_history) by omega)]
    · rw [if_neg hC,
          if_pos (show 2500 ≤ sqClosure s.position_history by omega)]

/-- Claim C6 witness: the classification instantiated on the closed square
path (arclength exactly 200, closure 0, shoelace sum -5000), where the
detector reports `counterclockwise`. -/
theorem c6_circle_classification_witness :
    (detect_circle (recs sqHist 0) 200).1 = some Rot.counterclockwise := by
  have h := c6_circle_classification (recs sqHist 0) 200 (by decide) rfl
  rw [h]
  rw [show (recs sqHist 0).position_history = sqHist from rfl, totalPath_sqHist]
  rw [if_neg (by norm_num), if_neg (by decide), if_neg (by decide)]

end GestCtrl


namespace GestCtrl

open GestureRecognizer VirtualDesktop

/-- Helper: one `update` call always maps the cooldown to its truncated
predecessor (a positive cooldown decreases by one, zero stays zero). -/
theorem update_cooldown (s : RecState) (p : Option Point) :
    (update s p).gesture_cooldown = s.gesture_cooldown - 1 := by
  unfold update
  cases p <;> dsimp only <;> split <;> first | rfl | omega | simp_all

/-- Helper: folding `update` over a list of inputs subtracts the number of
calls from the cooldown (truncated at zero). -/
theorem foldl_update_cooldown (ps : List (Option Point)) (s : RecState) :
    (List.foldl update s ps).gesture_cooldown = s.gesture_cooldown - ps.length := by
  induction ps generalizing s with
  | nil => simp
  | cons p ps ih =>
    rw [List.foldl_cons, ih, update_cooldown, List.length_cons]
    omega

/-- Helper: every `detect_swipe` call either returns none with the state
untouched, or returns a direction with exactly the cooldown armed. -/
theorem detect_swipe_cases (s : RecState) (direction : DirReq) (t : ℕ) :
    detect_swipe s direction t = (none, s) ∨
    ∃ d : Dir, detect_swipe s direction t
        = (some d, { s with gesture_cooldown := s.cooldown_frames }) := by
  unfold detect_swipe
  dsimp only
  split_ifs <;> first | exact Or.inl rfl | exact Or.inr ⟨_, rfl⟩

/-- Helper: the only state effect of `detect_swipe` is arming the cooldown
on a successful detection. -/
theorem detect_swipe_state (s : RecState) (direction : DirReq) (t : ℕ) :
    (detect_swipe s direction t).2 =
      (if (detect_swipe s direction t).1 = none then s
       else { s with gesture_cooldown := s.cooldown_frames }) := by
  rcases detect_swipe_cases s direction t with h | ⟨d, h⟩ <;> rw [h] <;> simp

/-- Helper: every `detect_push` call either returns false with the state
untouched, or returns true with exactly the cooldown armed. -/
theorem detect_push_cases (s : RecState) (t : ℕ) :
    detect_push s t = (false, s) ∨
    detect_push s t = (true, { s with gesture_cooldown := s.cooldown_frames }) := by
  unfold detect_push
  dsimp only
  split_ifs <;> first | exact Or.inl rfl | exact Or.inr rfl

/-- Helper: the only state effect of `detect_push` is arming the cooldown
on a successful detection. -/
theorem detect_push_state (s : RecState) (t : ℕ) :
    (detect_push s t).2 =
      (if (detect_push s t).1 = false then s
       else { s with gesture_cooldown := s.cooldown_frames }) := by
  rcases detect_push_cases s t with h | h <;> rw [h] <;> simp

/-- Helper: every `detect_pull` call either returns false with the state
untouched, or returns true with exactly the cooldown armed. -/
theorem detect_pull_cases (s : RecState) (t : ℕ) :
    detect_pull s t = (false, s) ∨
    detect_pull s t = (true, { s with gesture_cooldown := s.cooldown_frames }) := by
  unfold detect_pull
  dsimp only
  split_ifs <;> first | exact Or.inl rfl | exact Or.inr rfl

/-- Helper: the only state effect of `detect_pull` is arming the cooldown
on a successful detection. -/
theorem detect_pull_state (s : RecState) (t : ℕ) :
    (detect_pull s t).2 =
      (if (detect_pull s t).1 = false then s
       else { s with gesture_cooldown := s.cooldown_frames }) := by
  rcases detect_pull_cases s t with h | h <;> rw [h] <;> simp

/-- Helper: every `detect_circle` call either returns none with the state
untouched, or returns a rotation with exactly the cooldown armed. -/
theorem detect_circle_cases (s : RecState) (t : ℕ) :
    detect_circle s t = (none, s) ∨
    ∃ r : Rot, detect_circle s t
        = (some r, { s with gesture_cooldown := s.cooldown_frames }) := by
  unfold detect_circle
  split_ifs <;> first | exact Or.inl rfl | exact Or.inr ⟨_, rfl⟩

/-- Helper: the only state effect of `detect_circle` is arming the cooldown
on a successful detection. -/
theorem detect_circle_state (s : RecState) (t : ℕ) :
    (detect_circle s t).2 =
      (if (detect_circle s t).1 = none then s
       else { s with gesture_cooldown := s.cooldown_frames }) := by
  rcases detect_circle_cases s t with h | ⟨r, h⟩ <;> rw [h] <;> simp

/-- Helper: a positive cooldown makes `detect_swipe` a complete no-op. -/
theorem detect_swipe_cooldown_blocked (s : RecState) (direction : DirReq)
    (t : ℕ) (hgt : 0 < s.gesture_cooldown) :
    detect_swipe s direction t = (none, s) := by
  unfold detect_swipe
  dsimp only
  split_ifs <;> first | rfl | (exfalso; omega)

/-- Helper: a positive cooldown makes `detect_push` a complete no-op. -/
theorem detect_push_cooldown_blocked (s : RecState) (t : ℕ)
    (hgt : 0 < s.gesture_cooldown) :
    detect_push s t = (false, s) := by
  unfold detect_push
  dsimp only
  split_ifs <;> first | rfl | (exfalso; omega)

/-- Helper: a positive cooldown makes `detect_pull` a complete no-op. -/
theorem detect_pull_cooldown_blocked (s : RecState) (t : ℕ)
    (hgt : 0 < s.gesture_cooldown) :
    detect_pull s t = (false, s) := by
  unfold detect_pull
  dsimp only
  split_ifs <;> first | rfl | (exfalso; omega)

/-- Helper: a positive cooldown makes `detect_circle` a complete no-op. -/
theorem detect_circle_cooldown_blocked (s : RecState) (t : ℕ)
    (hgt : 0 < s.gesture_cooldown) :
    detect_circle s t = (none, s) := by
  unfold detect_circle
  split_ifs <;> first | rfl | (exfalso; omega)

end GestCtrl

namespace GestCtrl

open GestureRecognizer VirtualDesktop

/-- Claim C7 (confirmed): a successful detection by any of the four
detectors sets the shared cooldown to the reload value 15; while the
cooldown is positive every detector returns none/false and leaves the whole
state (cooldown included) unchanged; every `update` call maps the cooldown
to its truncated predecessor (positive cooldowns decrease by exactly one and
never pass below zero); and after 15 `update` calls a cooldown of 15 has
reached 0, so detection is possible again. -/
theorem c7_cooldown_protocol :
    (∀ (s : RecState) (direction : DirReq) (t : ℕ), s.cooldown_frames = 15 →
      (detect_swipe s direction t).1 ≠ none →
      (detect_swipe s direction t).2.gesture_cooldown = 15) ∧
    (∀ (s : RecState) (t : ℕ), s.cooldown_frames = 15 →
      (detect_push s t).1 = true →
      (detect_push s t).2.gesture_cooldown = 15) ∧
    (∀ (s : RecState) (t : ℕ), s.cooldown_frames = 15 →
      (detect_pull s t).1 = true →
      (detect_pull s t).2.gesture_cooldown = 15) ∧
    (∀ (s : RecState) (t : ℕ), s.cooldown_frames = 15 →
      (detect_circle s t).1 ≠ none →
      (detect_circle s t).2.gesture_cooldown = 15) ∧
    (∀ (s : RecState) (direction : DirReq) (t : ℕ), 0 < s.gesture_cooldown →
      detect_swipe s direction t = (none, s)) ∧
    (∀ (s : RecState) (t : ℕ), 0 < s.gesture_cooldown →
      detect_push s t = (false, s)) ∧
    (∀ (s : RecState) (t : ℕ), 0 < s.gesture_cooldown →
      detect_pull s t = (false, s)) ∧
    (∀ (s : RecState) (t : ℕ), 0 < s.gesture_cooldown →
      detect_circle s t = (none, s)) ∧
    (∀ (s : RecState) (p : Option Point), 0 < s.gesture_cooldown →
      (update s p).gesture_cooldown = s.gesture_cooldown - 1) ∧
    (∀ (s : RecState) (ps : List (Option Point)), s.gesture_cooldown = 15 →
      ps.length = 15 →
      (List.foldl update s ps).gesture_cooldown = 0) := by
  refine ⟨?_, ?_, ?_, ?_,
          fun s direction t h => detect_swipe_cooldown_blocked s direction t h,
          fun s t h => detect_push_cooldown_blocked s t h,
          fun s t h => detect_pull_cooldown_blocked s t h,
          fun s t h => detect_circle_cooldown_blocked s t h,
          fun s p _ => update_cooldown s p, ?_⟩
  · intro s direction t h15 hne
    rw [detect_swipe_state, if_neg hne]
    show s.cooldown_frames = 15
    exact h15
  · intro s t h15 htrue
    rw [detect_push_state, if_neg (by simp [htrue])]
    show s.cooldown_frames = 15
    exact h15
  · intro s t h15 htrue
    rw [detect_pull_state, if_neg (by simp [htrue])]
    show s.cooldown_frames = 15
    exact h15
  · intro s t h15 hne
    rw [detect_circle_state, if_neg hne]
    show s.cooldown_frames = 15
    exact h15
  · intro s ps h15 hlen
    rw [foldl_update_cooldown, h15, hlen]

/-- Claim C7 witness: concrete instantiations — each detector arming the
cooldown to 15 on success, every detector a pure no-op at cooldown 3, one
update stepping the cooldown from 15 to 14, and fifteen updates draining a
cooldown of 15 to 0. -/
theorem c7_cooldown_protocol_witness :
    (detect_swipe (recs [(0,0),(0,0),(0,0),(0,0),(150,0)] 0) .any 100).2.gesture_cooldown = 15 ∧
    (detect_push (recs [(0,0),(0,0),(0,0),(0,0),(0,200)] 0) 150).2.gesture_cooldown = 15 ∧
    (detect_pull (recs [(0,0),(0,0),(0,0),(0,0),(0,-200)] 0) 150).2.gesture_cooldown = 15 ∧
    (detect_circle (recs sqHist 0) 200).2.gesture_cooldown = 15 ∧
    detect_swipe (recs [(0,0),(0,0),(0,0),(0,0),(150,0)] 3) .any 100
      = (none, recs [(0,0),(0,0),(0,0),(0,0),(150,0)] 3) ∧
    detect_push (recs [(0,0),(0,0),(0,0),(0,0),(0,200)] 3) 150
      = (false, recs [(0,0),(0,0),(0,0),(0,0),(0,200)] 3) ∧
    detect_pull (recs [(0,0),(0,0),(0,0),(0,0),(0,-200)] 3) 150
      = (false, recs [(0,0),(0,0),(0,0),(0,0),(0,-200)] 3) ∧
    detect_circle (recs sqHist 3) 200 = (none, recs sqHist 3) ∧
    (update (recs [] 15) none).gesture_cooldown = 14 ∧
    (List.foldl update (recs [] 15) (List.replicate 15 none)).gesture_cooldown = 0 := by
  refine ⟨?_, ?_, ?_, ?_, ?_, ?_, ?_, ?_, ?_, ?_⟩
  · exact c7_cooldown_protocol.1 _ .any 100 rfl (by decide)
  · exact c7_cooldown_protocol.2.1 _ 150 rfl (by decide)
  · exact c7_cooldown_protocol.2.2.1 _ 150 rfl (by decide)
  · exact c7_cooldown_protocol.2.2.2.1 _ 200 rfl
      (by rw [detect_circle_sqHist]; decide)
  · exact c7_cooldown_protocol.2.2.2.2.1 _ .any 100 (by decide)
  · exact c7_cooldown_protocol.2.2.2.2.2.1 _ 150 (by decide)
  · exact c7_cooldown_protocol.2.2.2.2.2.2.1 _ 150 (by decide)
  · exact c7_cooldown_protocol.2.2.2.2.2.2.2.1 _ 200 (by decide)
  · have h := c7_cooldown_protocol.2.2.2.2.2.2.2.2.1 (recs [] 15) none (by decide)
    simpa [recs] using h
  · exact c7_cooldown_protocol.2.2.2.2.2.2.2.2.2 _ (List.replicate 15 none) rfl (by decide)

/-- Claim C10 (confirmed): none of the four detectors touches the position
history, the reload value, the capacity or `last_gesture` — each call
returns the state completely unchanged on a miss, and changes exactly the
cooldown (setting it to the reload value) on a successful detection. -/
theorem c10_detect_frame :
    (∀ (s : RecState) (direction : DirReq) (t : ℕ),
      (detect_swipe s direction t).2 =
        (if (detect_swipe s direction t).1 = none then s
         else { s with gesture_cooldown := s.cooldown_frames })) ∧
    (∀ (s : RecState) (t : ℕ),
      (detect_push s t).2 =
        (if (detect_push s t).1 = false then s
         else { s with gesture_cooldown := s.cooldown_frames })) ∧
    (∀ (s : RecState) (t : ℕ),
      (detect_pull s t).2 =
        (if (detect_pull s t).1 = false then s
         else { s with gesture_cooldown := s.cooldown_frames })) ∧
    (∀ (s : RecState) (t : ℕ),
      (detect_circle s t).2 =
        (if (detect_circle s t).1 = none then s
         else { s with gesture_cooldown := s.cooldown_frames })) :=
  ⟨fun s direction t => detect_swipe_state s direction t,
   fun s t => detect_push_state s t,
   fun s t => detect_pull_state s t,
   fun s t => detect_circle_state s t⟩

end GestCtrl

namespace GestCtrl

open GestureRecognizer VirtualDesktop

/-- Helper: `handle_push` preserves the size bounds of every window. -/
theorem sizeOk_handle_push (d : DesktopState)
    (h : ∀ w ∈ d.windows, sizeOk w) :
    ∀ w ∈ (handle_push d).windows, sizeOk w := by
  intro w' hw'
  unfold handle_push at hw'
  cases hA : d.active_window with
  | none => rw [hA] at hw'; exact h w' hw'
  | some i =>
    rw [hA] at hw'
    simp only [set_status] at hw'
    obtain ⟨w, hw, rfl⟩ := List.mem_map.mp hw'
    obtain ⟨h1, h2, h3, h4⟩ := h w hw
    unfold sizeOk
    split <;> refine ⟨?_, ?_, ?_, ?_⟩ <;> (try simp) <;> omega

/-- Helper: `handle_pull` preserves the size bounds of every window. -/
theorem sizeOk_handle_pull (d : DesktopState)
    (h : ∀ w ∈ d.windows, sizeOk w) :
    ∀ w ∈ (handle_pull d).windows, sizeOk w := by
  intro w' hw'
  unfold handle_pull at hw'
  cases hA : d.active_window with
  | none => rw [hA] at hw'; exact h w' hw'
  | some i =>
    rw [hA] at hw'
    simp only [set_status] at hw'
    obtain ⟨w, hw, rfl⟩ := List.mem_map.mp hw'
    obtain ⟨h1, h2, h3, h4⟩ := h w hw
    unfold sizeOk
    split <;> refine ⟨?_, ?_, ?_, ?_⟩ <;> (try simp) <;> omega

/-- Claim C9 (confirmed): with an active window resolving to id `i`,
`handle_swipe` translates exactly that window by 50 px in the given
direction; `handle_push` grows it by 50/40 clamped at 600/400;
`handle_pull` shrinks it by 50/40 clamped at 200/150; and any sequence of
push/pull calls keeps every window's size inside those bounds. -/
theorem c9_move_resize :
    (∀ (d : DesktopState) (i : ℕ), d.active_window = some i →
      (handle_swipe d Dir.left).windows =
        d.windows.map (fun v => if v.winId == i then { v with x := v.x - 50 } else v)) ∧
    (∀ (d : DesktopState) (i : ℕ), d.active_window = some i →
      (handle_swipe d Dir.right).windows =
        d.windows.map (fun v => if v.winId == i then { v with x := v.x + 50 } else v)) ∧
    (∀ (d : DesktopState) (i : ℕ), d.active_window = some i →
      (handle_swipe d Dir.up).windows =
        d.windows.map (fun v => if v.winId == i then { v with y := v.y - 50 } else v)) ∧
    (∀ (d : DesktopState) (i : ℕ), d.active_window = some i →
      (handle_swipe d Dir.down).windows =
        d.windows.map (fun v => if v.winId == i then { v with y := v.y + 50 } else v)) ∧
    (∀ (d : DesktopState) (i : ℕ), d.active_window = some i →
      (handle_push d).windows =
        d.windows.map (fun v => if v.winId == i then
          { v with width := min (v.width + 50) 600, height := min (v.height + 40) 400 }
        else v)) ∧
    (∀ (d : DesktopState) (i : ℕ), d.active_window = some i →
      (handle_pull d).windows =
        d.windows.map (fun v => if v.winId == i then
          { v with width := max (v.width - 50) 200, height := max (v.height - 40) 150 }
        else v)) ∧
    (∀ (d : DesktopState), (∀ w ∈ d.windows, sizeOk w) →
      ∀ ops : List DOp, (∀ op ∈ ops, op = DOp.push ∨ op = DOp.pull) →
      ∀ w ∈ (List.foldl applyOp d ops).windows, sizeOk w) := by
  refine ⟨?_, ?_, ?_, ?_, ?_, ?_, ?_⟩
  · intro d i hA
    unfold handle_swipe
    rw [hA]
    rfl
  · intro d i hA
    unfold handle_swipe
    rw [hA]
    rfl
  · intro d i hA
    unfold handle_swipe
    rw [hA]
    rfl
  · intro d i hA
    unfold handle_swipe
    rw [hA]
    rfl
  · intro d i hA
    unfold handle_push
    rw [hA]
    rfl
  · intro d i hA
    unfold handle_pull
    rw [hA]
    rfl
  · intro d h ops hops
    induction ops generalizing d with
    | nil => simpa using h
    | cons op ops ih =>
      rw [List.foldl_cons]
      refine ih _ ?_ (fun op' hop' => hops op' (by simp [hop']))
      rcases hops op (by simp) with h1 | h1 <;> subst h1
      · exact sizeOk_handle_push d h
      · exact sizeOk_handle_pull d h

/-- Claim C9 witness: on the desktop whose Music window (id 2) has just been
activated, a left swipe shifts exactly that window by -50 in x and a push
grows it with the clamped formulas; and a concrete push/push/pull sequence
from the initial desktop keeps all sizes within bounds. -/
theorem c9_move_resize_witness :
    ((handle_swipe (handle_swipe (mkState 1280 720) Dir.left) Dir.left).windows =
      (handle_swipe (mkState 1280 720) Dir.left).windows.map
        (fun v => if v.winId == 2 then { v with x := v.x - 50 } else v)) ∧
    ((handle_push (handle_swipe (mkState 1280 720) Dir.left)).windows =
      (handle_swipe (mkState 1280 720) Dir.left).windows.map
        (fun v => if v.winId == 2 then
          { v with width := min (v.width + 50) 600, height := min (v.height + 40) 400 }
        else v)) ∧
    (∀ w ∈ (List.foldl applyOp (mkState 1280 720)
        [DOp.push, DOp.push, DOp.pull]).windows, sizeOk w) := by
  refine ⟨?_, ?_, ?_⟩
  · exact c9_move_resize.1 _ 2 (by decide)
  · exact c9_move_resize.2.2.2.2.1 _ 2 (by decide)
  · exact c9_move_resize.2.2.2.2.2.2 _ (by decide) _ (by decide)

end GestCtrl

namespace GestCtrl

open GestureRecognizer VirtualDesktop

/-- Claim C8 (confirmed): while not dragging, a pinch in the front-most hit
window's body but outside its title bar changes nothing at all; a pinch in
its title bar starts the drag, records the grab offset `(x - w.x, y - w.y)`,
brings the window to the front (last position) as the active window; and
while dragging, every pinched cursor call repositions exactly the active
window to `(x' - dragOffset.1, y' - dragOffset.2)`, with the stored offset
untouched. -/
theorem c8_drag_protocol :
    (∀ (d : DesktopState) (x y : ℤ) (w : VirtualWindow), d.dragging = false →
      d.windows.reverse.find? (fun v => v.contains_point x y) = some w →
      w.in_title_bar x y = false →
      handle_cursor d x y true = d) ∧
    (∀ (d : DesktopState) (x y : ℤ) (w : VirtualWindow), d.dragging = false →
      d.windows.reverse.find? (fun v => v.contains_point x y) = some w →
      w.in_title_bar x y = true →
      (handle_cursor d x y true).dragging = true ∧
      (handle_cursor d x y true).active_window = some w.winId ∧
      (handle_cursor d x y true).drag_offset = (x - w.x, y - w.y) ∧
      (handle_cursor d x y true).windows.getLast? = some { w with is_active := true }) ∧
    (∀ (d : DesktopState) (x' y' : ℤ) (i : ℕ), d.dragging = true →
      d.active_window = some i →
      handle_cursor d x' y' true =
        { d with windows := d.windows.map (fun v =>
            if v.winId == i then
              { v with x := x' - d.drag_offset.1, y := y' - d.drag_offset.2 }
            else v) }) := by
  refine ⟨?_, ?_, ?_⟩
  · intro d x y w hdrag hfind htb
    unfold handle_cursor
    rw [hfind]
    simp [hdrag, htb]
  · intro d x y w hdrag hfind htb
    have hw : w ∈ d.windows := List.mem_reverse.mp (List.mem_of_find?_eq_some hfind)
    have hany : d.windows.any (fun v => v.winId == w.winId) = true :=
      List.any_eq_true.mpr ⟨w, hw, by simp⟩
    have hcomp : handle_cursor d x y true =
        { d with
          dragging := true,
          active_window := some w.winId,
          drag_offset := (x - w.x, y - w.y),
          windows :=
            ((((d.windows.eraseP (fun v => v.winId == w.winId)) ++ [w]).map
                (fun v => if v.winId == w.winId then v
                          else { v with is_active := false })).map
                (fun v => if v.winId == w.winId then { v with is_active := true }
                          else v)).map
                (fun v => if v.winId == w.winId then
                  { v with x := x - (x - w.x), y := y - (y - w.y) } else v) } := by
      simp [handle_cursor, hfind, hdrag, htb, bring_to_front, hany]
    rw [hcomp]
    refine ⟨rfl, rfl, rfl, ?_⟩
    simp only [List.map_append, List.map_cons, List.map_nil, List.getLast?_concat]
    simp only [beq_self_eq_true, if_true]
    cases w with
    | mk id wx wy ww wh wt wc wact wmin wor =>
      simp only [Option.some.injEq, VirtualWindow.mk.injEq, true_and, and_true,
        eq_self_iff_true]
      omega
  · intro d x' y' i hdrag hact
    unfold handle_cursor
    simp [hdrag, hact]

end GestCtrl

namespace GestCtrl

open GestureRecognizer VirtualDesktop

/-- Claim C8 witness: on the fresh desktop, a pinch at (150,200) hits the
Notes body below its title bar and changes nothing; a pinch at (150,120)
hits the Notes title bar, starts the drag with offset (50,20) and puts the
activated Notes window in front; a further pinched call at (300,400) then
repositions exactly that window by the recorded offset. -/
theorem c8_drag_protocol_witness :
    (handle_cursor (mkState 1280 720) 150 200 true = mkState 1280 720) ∧
    ((handle_cursor (mkState 1280 720) 150 120 true).dragging = true ∧
     (handle_cursor (mkState 1280 720) 150 120 true).active_window =
       some (VirtualWindow.mk' 0 100 100 300 200 "Notes" (230, 216, 173)).winId ∧
     (handle_cursor (mkState 1280 720) 150 120 true).drag_offset =
       (150 - (VirtualWindow.mk' 0 100 100 300 200 "Notes" (230, 216, 173)).x,
        120 - (VirtualWindow.mk' 0 100 100 300 200 "Notes" (230, 216, 173)).y) ∧
     (handle_cursor (mkState 1280 720) 150 120 true).windows.getLast? =
       some { VirtualWindow.mk' 0 100 100 300 200 "Notes" (230, 216, 173) with
              is_active := true }) ∧
    (handle_cursor (handle_cursor (mkState 1280 720) 150 120 true) 300 400 true =
      { handle_cursor (mkState 1280 720) 150 120 true with
        windows := (handle_cursor (mkState 1280 720) 150 120 true).windows.map (fun v =>
          if v.winId == 0 then
            { v with
              x := 300 - (handle_cursor (mkState 1280 720) 150 120 true).drag_offset.1,
              y := 400 - (handle_cursor (mkState 1280 720) 150 120 true).drag_offset.2 }
          else v) }) := by
  refine ⟨?_, ?_, ?_⟩
  · exact c8_drag_protocol.1 (mkState 1280 720) 150 200
      (VirtualWindow.mk' 0 100 100 300 200 "Notes" (230, 216, 173)) rfl
      (by decide) (by decide)
  · exact c8_drag_protocol.2.1 (mkState 1280 720) 150 120
      (VirtualWindow.mk' 0 100 100 300 200 "Notes" (230, 216, 173)) rfl
      (by decide) (by decide)
  · exact c8_drag_protocol.2.2 (handle_cursor (mkState 1280 720) 150 120 true)
      300 400 0 (by decide) (by decide)

end GestCtrl

namespace GestCtrl

open GestureRecognizer VirtualDesktop

/-- Helper: erasing by id commutes with projecting to ids. -/
theorem map_winId_eraseP (ws : List VirtualWindow) (a : ℕ) :
    (ws.eraseP (fun v => v.winId == a)).map (fun w => w.winId)
      = (ws.map (fun w => w.winId)).eraseP (fun i => i == a) := by
  induction ws with
  | nil => rfl
  | cons w ws ih =>
    simp only [List.eraseP_cons, List.map_cons]
    cases h : (w.winId == a) <;> simp [h, ih]

/-- Helper: in a duplicate-free list, erasing the first occurrence of `a`
removes `a` entirely. -/
theorem not_mem_eraseP_self (l : List ℕ) (a : ℕ) (h : l.Nodup) :
    a ∉ l.eraseP (fun i => i == a) := by
  induction l with
  | nil => simp
  | cons b l ih =>
    obtain ⟨hb, hl⟩ := List.nodup_cons.mp h
    rw [List.eraseP_cons]
    cases hba : (b == a)
    · simp only [hba, cond_false, List.mem_cons, not_or]
      refine ⟨?_, ih hl⟩
      intro hab
      subst hab
      simp at hba
    · simp only [hba, cond_true]
      have : b = a := by simpa using hba
      subst this
      exact hb

/-- Helper: mapping an id-preserving window function leaves the id list
unchanged. -/
theorem map_winId_of_preserving (l : List VirtualWindow)
    (f : VirtualWindow → VirtualWindow) (hf : ∀ v, (f v).winId = v.winId) :
    (l.map f).map (fun w => w.winId) = l.map (fun w => w.winId) := by
  simp [List.map_map, Function.comp, hf]

/-- Helper: a window-list map that preserves ids and active flags preserves
the active-consistency invariant. -/
theorem activeConsistent_map (ws : List VirtualWindow) (a : Option ℕ)
    (f : VirtualWindow → VirtualWindow)
    (hid : ∀ v, (f v).winId = v.winId)
    (hact : ∀ v, (f v).is_active = v.is_active)
    (h : ActiveConsistent ws a) : ActiveConsistent (ws.map f) a := by
  obtain ⟨h1, h2, h3⟩ := h
  refine ⟨?_, ?_, ?_⟩
  · intro w' hw' hactv
    obtain ⟨w, hw, rfl⟩ := List.mem_map.mp hw'
    rw [hid]
    exact h1 w hw (by rw [← hact]; exact hactv)
  · cases ha : a with
    | none => trivial
    | some i =>
      rw [ha] at h2
      obtain ⟨w, hw, hwi⟩ := h2
      exact ⟨f w, List.mem_map_of_mem f hw, by rw [hid, hwi]⟩
  · rw [map_winId_of_preserving ws f hid]
    exact h3

/-- Helper: the invariant bounds the number of active windows by one. -/
theorem countP_active_le_one (ws : List VirtualWindow) (a : Option ℕ)
    (h : ActiveConsistent ws a) : ws.countP (fun w => w.is_active) ≤ 1 := by
  obtain ⟨h1, h2, h3⟩ := h
  cases ha : a with
  | none =>
    have hz : ws.countP (fun w => w.is_active) = 0 := by
      rw [List.countP_eq_zero]
      intro w hw hactv
      have := h1 w hw (by simpa using hactv)
      rw [ha] at this
      cases this
    omega
  | some i =>
    have hmono : ws.countP (fun w => w.is_active) ≤ ws.countP (fun w => w.winId == i) := by
      refine List.countP_mono_left ?_
      intro w hw hactv
      have := h1 w hw (by simpa using hactv)
      rw [ha] at this
      simp only [beq_iff_eq]
      exact (Option.some.inj this).symm
    have hcount : ws.countP (fun w => w.winId == i) = (ws.map (fun w => w.winId)).count i := by
      rw [List.count_eq_countP, List.countP_map]
      rfl
    have hle : (ws.map (fun w => w.winId)).count i ≤ 1 :=
      List.nodup_iff_count_le_one.mp h3 i
    omega

end GestCtrl

namespace GestCtrl

open GestureRecognizer VirtualDesktop

/-- Helper: after the drag-start sequence of `handle_cursor` — remove the
clicked window, re-append it, deactivate the others, then flag it active —
the window list is consistent with the clicked window as active reference. -/
theorem activeConsistent_after_start
    (ws : List VirtualWindow) (a : Option ℕ) (w : VirtualWindow)
    (hw : w ∈ ws) (hinv : ActiveConsistent ws a) :
    ActiveConsistent
      ((((ws.eraseP (fun v => v.winId == w.winId)) ++ [w]).map
          (fun v => if v.winId == w.winId then v
                    else { v with is_active := false })).map
          (fun v => if v.winId == w.winId then { v with is_active := true }
                    else v))
      (some w.winId) := by
  obtain ⟨h1, h2, h3⟩ := hinv
  have hnodupE : ((ws.eraseP (fun v => v.winId == w.winId)).map (fun v => v.winId)).Nodup := by
    rw [map_winId_eraseP]
    exact h3.sublist (List.eraseP_sublist _)
  have hnotmem : w.winId ∉ (ws.eraseP (fun v => v.winId == w.winId)).map (fun v => v.winId) := by
    rw [map_winId_eraseP]
    exact not_mem_eraseP_self _ _ h3
  have hErNe : ∀ v ∈ ws.eraseP (fun v => v.winId == w.winId), v.winId ≠ w.winId := by
    intro v hv hEq
    have hmem := List.mem_map_of_mem (fun u => u.winId) hv
    simp only at hmem
    rw [hEq] at hmem
    exact hnotmem hmem
  rw [List.map_map]
  refine ⟨?_, ?_, ?_⟩
  · intro v' hv' hactv
    obtain ⟨u, hu, rfl⟩ := List.mem_map.mp hv'
    rcases List.mem_append.mp hu with huE | huW
    · have hb : (u.winId == w.winId) = false :=
        beq_eq_false_iff_ne.mpr (hErNe u huE)
      simp only [Function.comp, hb, Bool.false_eq_true, if_false] at hactv ⊢
    · have : u = w := by simpa using huW
      subst this
      simp only [Function.comp, beq_self_eq_true, if_true]
  · refine ⟨(fun v => (if v.winId == w.winId then { v with is_active := true } else v))
        ((fun v => if v.winId == w.winId then v else { v with is_active := false }) w),
      ?_, ?_⟩
    · exact List.mem_map_of_mem _ (List.mem_append_right _ (List.mem_singleton.mpr rfl))
    · simp
  · have hpres : ∀ v : VirtualWindow,
        (((fun v => if v.winId == w.winId then { v with is_active := true } else v) ∘
          (fun v => if v.winId == w.winId then v else { v with is_active := false })) v).winId
          = v.winId := by
      intro v
      simp only [Function.comp]
      cases hb : (v.winId == w.winId) <;> simp [hb]
    rw [map_winId_of_preserving _ _ hpres, List.map_append]
    rw [List.nodup_append]
    refine ⟨hnodupE, by simp, ?_⟩
    intro i hiE hiW
    simp only [List.map_cons, List.map_nil, List.mem_singleton] at hiW
    subst hiW
    exact hnotmem hiE

end GestCtrl

namespace GestCtrl

open GestureRecognizer VirtualDesktop

/-- Helper: `handle_push` preserves the desktop invariant. -/
theorem DInv_handle_push (d : DesktopState) (h : DInv d) :
    DInv (handle_push d) := by
  cases hact : d.active_window with
  | none =>
    have he : handle_push d = d := by
      unfold handle_push
      rw [hact]
    rw [he]
    exact h
  | some i =>
    have he : handle_push d =
        set_status { d with windows := d.windows.map (fun v =>
          if v.winId == i then
            { v with width := min (v.width + 50) 600, height := min (v.height + 40) 400 }
          else v) } ("Enlarged " ++ activeTitle d i) := by
      unfold handle_push
      rw [hact]
    rw [he]
    show ActiveConsistent _ d.active_window
    refine activeConsistent_map d.windows d.active_window _ ?_ ?_ h
    · intro v
      dsimp only
      split <;> rfl
    · intro v
      dsimp only
      split <;> rfl

/-- Helper: `handle_pull` preserves the desktop invariant. -/
theorem DInv_handle_pull (d : DesktopState) (h : DInv d) :
    DInv (handle_pull d) := by
  cases hact : d.active_window with
  | none =>
    have he : handle_pull d = d := by
      unfold handle_pull
      rw [hact]
    rw [he]
    exact h
  | some i =>
    have he : handle_pull d =
        set_status { d with windows := d.windows.map (fun v =>
          if v.winId == i then
            { v with width := max (v.width - 50) 200, height := max (v.height - 40) 150 }
          else v) } ("Shrunk " ++ activeTitle d i) := by
      unfold handle_pull
      rw [hact]
    rw [he]
    show ActiveConsistent _ d.active_window
    refine activeConsistent_map d.windows d.active_window _ ?_ ?_ h
    · intro v
      dsimp only
      split <;> rfl
    · intro v
      dsimp only
      split <;> rfl

/-- Helper: `handle_swipe` preserves the desktop invariant. -/
theorem DInv_handle_swipe (d : DesktopState) (dir : Dir) (h : DInv d) :
    DInv (handle_swipe d dir) := by
  obtain ⟨h1, h2, h3⟩ := h
  cases hact : d.active_window with
  | some i =>
    cases dir with
    | left =>
      have he : handle_swipe d Dir.left =
          set_status { d with windows := d.windows.map (fun v =>
            if v.winId == i then { v with x := v.x - 50 } else v) }
            ("Moved " ++ activeTitle d i ++ " left") := by
        unfold handle_swipe
        rw [hact]
      rw [he]
      show ActiveConsistent _ d.active_window
      exact activeConsistent_map d.windows d.active_window _
        (fun v => by split <;> rfl)
        (fun v => by split <;> rfl) ⟨h1, h2, h3⟩
    | right =>
      have he : handle_swipe d Dir.right =
          set_status { d with windows := d.windows.map (fun v =>
            if v.winId == i then { v with x := v.x + 50 } else v) }
            ("Moved " ++ activeTitle d i ++ " right") := by
        unfold handle_swipe
        rw [hact]
      rw [he]
      show ActiveConsistent _ d.active_window
      exact activeConsistent_map d.windows d.active_window _
        (fun v => by split <;> rfl)
        (fun v => by split <;> rfl) ⟨h1, h2, h3⟩
    | up =>
      have he : handle_swipe d Dir.up =
          set_status { d with windows := d.windows.map (fun v =>
            if v.winId == i then { v with y := v.y - 50 } else v) }
            ("Moved " ++ activeTitle d i ++ " up") := by
        unfold handle_swipe
        rw [hact]
      rw [he]
      show ActiveConsistent _ d.active_window
      exact activeConsistent_map d.windows d.active_window _
        (fun v => by split <;> rfl)
        (fun v => by split <;> rfl) ⟨h1, h2, h3⟩
    | down =>
      have he : handle_swipe d Dir.down =
          set_status { d with windows := d.windows.map (fun v =>
            if v.winId == i then { v with y := v.y + 50 } else v) }
            ("Moved " ++ activeTitle d i ++ " down") := by
        unfold handle_swipe
        rw [hact]
      rw [he]
      show ActiveConsistent _ d.active_window
      exact activeConsistent_map d.windows d.active_window _
        (fun v => by split <;> rfl)
        (fun v => by split <;> rfl) ⟨h1, h2, h3⟩
  | none =>
    cases hlast : d.windows.getLast? with
    | none =>
      have he : handle_swipe d dir = d := by
        unfold handle_swipe
        rw [hact, hlast]
      rw [he]
      exact ⟨h1, h2, h3⟩
    | some w =>
      have hw : w ∈ d.windows := List.mem_of_getLast?_eq_some hlast
      have he : handle_swipe d dir =
          { d with active_window := some w.winId,
                   windows := d.windows.map (fun v =>
                     if v.winId == w.winId then { v with is_active := true } else v) } := by
        unfold handle_swipe
        rw [hact, hlast]
      rw [he]
      show ActiveConsistent _ (some w.winId)
      refine ⟨?_, ?_, ?_⟩
      · intro v' hv' hactv
        obtain ⟨u, hu, rfl⟩ := List.mem_map.mp hv'
        cases hb : (u.winId == w.winId)
        · simp only [hb, Bool.false_eq_true, if_false] at hactv ⊢
          have := h1 u hu hactv
          rw [hact] at this
          cases this
        · have : u.winId = w.winId := by simpa using hb
          simp [hb, this]
      · refine ⟨(fun v => if v.winId == w.winId then { v with is_active := true } else v) w,
          List.mem_map_of_mem _ hw, ?_⟩
        simp
      · rw [map_winId_of_preserving _ _
          (fun v => by split <;> rfl)]
        exact h3

/-- Helper: `handle_cursor` preserves the desktop invariant. -/
theorem DInv_handle_cursor (d : DesktopState) (x y : ℤ) (p : Bool)
    (h : DInv d) : DInv (handle_cursor d x y p) := by
  cases p with
  | false => exact h
  | true =>
    by_cases hdrag : d.dragging = false
    · cases hclick : d.windows.reverse.find? (fun v => v.contains_point x y) with
      | none =>
        have he : handle_cursor d x y true = d := by
          unfold handle_cursor
          rw [hclick]
          simp [hdrag]
        rw [he]
        exact h
      | some w =>
        by_cases htb : w.in_title_bar x y = true
        · have hw : w ∈ d.windows := List.mem_reverse.mp (List.mem_of_find?_eq_some hclick)
          have hany : d.windows.any (fun v => v.winId == w.winId) = true :=
            List.any_eq_true.mpr ⟨w, hw, by simp⟩
          have hcomp : handle_cursor d x y true =
              { d with
                dragging := true,
                active_window := some w.winId,
                drag_offset := (x - w.x, y - w.y),
                windows :=
                  ((((d.windows.eraseP (fun v => v.winId == w.winId)) ++ [w]).map
                      (fun v => if v.winId == w.winId then v
                                else { v with is_active := false })).map
                      (fun v => if v.winId == w.winId then { v with is_active := true }
                                else v)).map
                      (fun v => if v.winId == w.winId then
                        { v with x := x - (x - w.x), y := y - (y - w.y) } else v) } := by
            simp [handle_cursor, hclick, hdrag, htb, bring_to_front, hany]
          rw [hcomp]
          show ActiveConsistent _ (some w.winId)
          refine activeConsistent_map _ (some w.winId) _
            (fun v => by split <;> rfl)
            (fun v => by split <;> rfl) ?_
          exact activeConsistent_after_start d.windows d.active_window w hw h
        · have he : handle_cursor d x y true = d := by
            unfold handle_cursor
            rw [hclick]
            simp [hdrag, htb]
          rw [he]
          exact h
    · have hdrag' : d.dragging = true := by
        revert hdrag
        cases d.dragging <;> simp
      cases hact : d.active_window with
      | none =>
        have he : handle_cursor d x y true = d := by
          unfold handle_cursor
          simp [hdrag', hact]
        rw [he]
        exact h
      | some i =>
        have hcomp : handle_cursor d x y true =
            { d with windows := d.windows.map (fun v =>
                if v.winId == i then
                  { v with x := x - d.drag_offset.1, y := y - d.drag_offset.2 }
                else v) } := by
          unfold handle_cursor
          simp [hdrag', hact]
        rw [hcomp]
        show ActiveConsistent _ d.active_window
        exact activeConsistent_map d.windows d.active_window _
          (fun v => by split <;> rfl)
          (fun v => by split <;> rfl) h

end GestCtrl

namespace GestCtrl

open GestureRecognizer VirtualDesktop

/-- Helper: every non-reset operation preserves the desktop invariant. -/
theorem DInv_applyOp (d : DesktopState) (op : DOp) (hop : op ≠ DOp.resetOp)
    (h : DInv d) : DInv (applyOp d op) := by
  cases op with
  | cursor x y p => exact DInv_handle_cursor d x y p h
  | swipe dir => exact DInv_handle_swipe d dir h
  | push => exact DInv_handle_push d h
  | pull => exact DInv_handle_pull d h
  | resetOp => exact absurd rfl hop

/-- Helper: the freshly constructed desktop satisfies the invariant. -/
theorem DInv_mkState : DInv (mkState 1280 720) := by
  refine ⟨?_, trivial, ?_⟩ <;> decide

/-- Helper: the invariant holds after any reset-free operation sequence from
the initial desktop. -/
theorem DInv_foldl (ops : List DOp) (hops : ∀ op ∈ ops, op ≠ DOp.resetOp) :
    DInv (List.foldl applyOp (mkState 1280 720) ops) := by
  suffices hgen : ∀ (d : DesktopState), DInv d →
      ∀ ops : List DOp, (∀ op ∈ ops, op ≠ DOp.resetOp) →
      DInv (List.foldl applyOp d ops) from
    hgen _ DInv_mkState ops hops
  intro d hd ops2 hops2
  induction ops2 generalizing d with
  | nil => simpa using hd
  | cons op ops2 ih =>
    rw [List.foldl_cons]
    exact ih _ (DInv_applyOp d op (hops2 op (by simp)) hd)
      (fun op' hop' => hops2 op' (by simp [hop']))

/-- Claim C2 (amended): in every desktop state reachable from the initial
state by any sequence of handleCursor, handleSwipe, handlePush and
handlePull operations — reset excluded — a set `active_window` reference
resolves to a window currently in the collection, and at most one window in
the collection is flagged active.  (The reset operation breaks the first
part: it discards the windows the active reference points into.) -/
theorem c2_active_invariant :
    ∀ ops : List DOp, (∀ op ∈ ops, op ≠ DOp.resetOp) →
      (match (List.foldl applyOp (mkState 1280 720) ops).active_window with
       | some i => ∃ w ∈ (List.foldl applyOp (mkState 1280 720) ops).windows, w.winId = i
       | none => True) ∧
      (List.foldl applyOp (mkState 1280 720) ops).windows.countP
        (fun w => w.is_active) ≤ 1 := by
  intro ops hops
  obtain ⟨h1, h2, h3⟩ := DInv_foldl ops hops
  exact ⟨h2, countP_active_le_one _ _ ⟨h1, h2, h3⟩⟩

/-- Claim C2 witness: the invariant conclusions instantiated on the
reset-free sequence "activating swipe, then a title-bar pinch". -/
theorem c2_active_invariant_witness :
    (match (List.foldl applyOp (mkState 1280 720)
        [DOp.swipe Dir.left, DOp.cursor 150 120 true]).active_window with
     | some i => ∃ w ∈ (List.foldl applyOp (mkState 1280 720)
        [DOp.swipe Dir.left, DOp.cursor 150 120 true]).windows, w.winId = i
     | none => True) ∧
    (List.foldl applyOp (mkState 1280 720)
      [DOp.swipe Dir.left, DOp.cursor 150 120 true]).windows.countP
      (fun w => w.is_active) ≤ 1 :=
  c2_active_invariant [DOp.swipe Dir.left, DOp.cursor 150 120 true] (by decide)

/-- Claim C2 counterexample: the claim as stated also admits reset in the
operation sequence; after a swipe (which activates the Music window, id 2)
followed by a reset, the state is reachable in the claimed sense but its
active reference (still id 2) resolves to no window in the collection (the
fresh demo windows have ids 3, 4, 5). -/
theorem c2_active_invariant_counterexample :
    (List.foldl applyOp (mkState 1280 720)
      [DOp.swipe Dir.left, DOp.resetOp]).active_window = some 2 ∧
    ∀ w ∈ (List.foldl applyOp (mkState 1280 720)
      [DOp.swipe Dir.left, DOp.resetOp]).windows, w.winId ≠ 2 := by
  refine ⟨by decide, by decide⟩

end GestCtrl
